import Mathlib

/-
Verification of the Task Lifecycle and Execution Engine of the
screensage-cloud backend (src/backend/task_manager.py together with the
data model in src/backend/models.py).

Modelling conventions of the shallow embedding:
  - Python dictionaries keyed by task id become association lists
    (List (String × TaskResponse)); the registry of in-flight execution
    handles (self.active_tasks) becomes the list of registered task ids.
  - datetime.now() is modelled by an explicit clock of natural-number
    ticks threaded through the functions; durations become rationals.
  - Python float arithmetic on small step counts is modelled by exact
    rational arithmetic.
  - A step parameter dictionary is modelled by the one field the verified
    logic reads: parameters.get("critical", False).
  - The asynchronous call await self._execute_step(step) is modelled by an
    oracle list of per-step outcomes: StepOutcome.ok res models a normal
    return of the result dictionary, StepOutcome.exc msg models the await
    raising an exception, which the per-step except handler catches.
  - The possibility that the execution routine raises an unexpected error
    outside the per-step try scope is modelled by an explicit injection
    argument (crash : Option String) consulted after the task lookup; the
    try / except / finally structure of _execute_task_steps is embedded
    explicitly.
-/

namespace ScreenSage

/-- Task and step status enumeration, from models.py TaskStatus. -/
inductive TaskStatus where
  | pending
  | processing
  | completed
  | failed
  | cancelled
deriving DecidableEq, Repr

/-- Task priority enumeration, from models.py TaskPriority. -/
inductive TaskPriority where
  | low
  | medium
  | high
  | urgent
deriving DecidableEq, Repr

/-- Step action enumeration, from models.py ActionType. -/
inductive ActionType where
  | click
  | typeText
  | scroll
  | wait
  | screenshot
  | custom
deriving DecidableEq, Repr

/-- The result dictionary returned by CloudTaskManager._execute_step
(task_manager.py lines 221-236): keys success, result or error,
execution_time, timestamp. -/
structure StepExecResult where
  success : Bool
  result : Option String := none
  error : Option String := none
  execution_time : ℚ
  timestamp : ℕ
deriving DecidableEq, Repr

/-- The step parameter dictionary, restricted to the one entry the verified
logic reads: parameters.get("critical", False)
(task_manager.py line 336). -/
structure StepParams where
  critical : Bool := false
deriving DecidableEq, Repr

/-- A task step, from models.py TaskStep. -/
structure TaskStep where
  id : String
  description : String
  action : ActionType
  parameters : StepParams := {}
  expected_result : Option String := none
  status : TaskStatus := TaskStatus.pending
  result : Option StepExecResult := none
  error_message : Option String := none
  execution_time : Option ℚ := none
deriving DecidableEq, Repr

/-- A task creation request, from models.py TaskRequest. -/
structure TaskRequest where
  title : String
  description : String
  priority : TaskPriority := TaskPriority.medium
  steps : List TaskStep
  max_retries : ℕ := 3
  timeout : ℕ := 300
  auto_execute : Bool := false
  tags : List String := []
deriving DecidableEq, Repr

/-- A task record, from models.py TaskResponse. -/
structure TaskResponse where
  id : String
  title : String
  description : String
  priority : TaskPriority
  status : TaskStatus
  steps : List TaskStep
  progress : ℚ
  created_at : ℕ
  updated_at : ℕ
  started_at : Option ℕ := none
  completed_at : Option ℕ := none
  execution_time : Option ℚ := none
  success_rate : ℚ
  error_message : Option String := none
  tags : List String := []
  total_steps : ℕ
  completed_steps : ℕ
  failed_steps : ℕ
  pending_steps : ℕ
deriving DecidableEq, Repr

/-- A history entry, the dictionary built by CloudTaskManager._add_to_history
(task_manager.py lines 354-364). -/
structure HistoryEntry where
  task_id : String
  title : String
  status : TaskStatus
  success_rate : ℚ
  execution_time : Option ℚ
  completed_at : Option ℕ
  step_count : ℕ
  completed_steps : ℕ
  failed_steps : ℕ
deriving DecidableEq, Repr

/-- The manager state, from CloudTaskManager.__init__
(task_manager.py lines 22-26): the task registry, the registry of
in-flight execution handles, the bounded history and its capacity. -/
structure CloudTaskManager where
  tasks : List (String × TaskResponse)
  active_tasks : List String
  task_history : List HistoryEntry
  max_history : ℕ := 1000
deriving DecidableEq, Repr

/-- The freshly constructed manager of CloudTaskManager.__init__. -/
def CloudTaskManager.init : CloudTaskManager :=
  { tasks := [], active_tasks := [], task_history := [], max_history := 1000 }

/-- Dictionary lookup self.tasks.get(task_id) on the association list. -/
def lookupTask : List (String × TaskResponse) → String → Option TaskResponse
  | [], _ => none
  | (k, v) :: rest, tid => if k = tid then some v else lookupTask rest tid

/-- In-place mutation of the task stored under a key: the Python code
mutates the TaskResponse object held in self.tasks, which the embedding
renders as rebuilding the association list with the field update applied. -/
def updateTaskList (f : TaskResponse → TaskResponse) :
    List (String × TaskResponse) → String → List (String × TaskResponse)
  | [], _ => []
  | (k, v) :: rest, tid =>
      if k = tid then (k, f v) :: rest else (k, v) :: updateTaskList f rest tid

/-- Removal of a key from the in-flight handle registry
(del self.active_tasks[task_id], guarded by a membership test in the
source, which makes the unguarded removal equivalent). -/
def removeHandle (l : List String) (tid : String) : List String :=
  l.filter (fun h => h != tid)

/-- Insertion of a key into the in-flight handle registry
(self.active_tasks[task_id] = execution_task). -/
def insertHandle (l : List String) (tid : String) : List String :=
  if tid ∈ l then l else l ++ [tid]

/-- CloudTaskManager.create_task (task_manager.py lines 28-63), with the
generated uuid and the clock reading passed explicitly. -/
def create_task (req : TaskRequest) (task_id : String) (now : ℕ) : TaskResponse :=
  { id := task_id
    title := req.title
    description := req.description
    priority := req.priority
    status := TaskStatus.pending
    steps := req.steps
    progress := 0
    created_at := now
    updated_at := now
    success_rate := 0
    tags := req.tags
    total_steps := req.steps.length
    completed_steps := 0
    failed_steps := 0
    pending_steps := req.steps.length }

/-- CloudTaskManager._should_continue_after_failure
(task_manager.py lines 331-347). -/
def _should_continue_after_failure (task : TaskResponse) (failed_step : TaskStep) : Bool :=
  if failed_step.parameters.critical then false
  else if (task.failed_steps : ℚ) / (task.steps.length : ℚ) > 1/2 then false
  else if task.priority = TaskPriority.high ∧ 2 < task.failed_steps then false
  else true

/-- CloudTaskManager._execute_step (task_manager.py lines 198-236): the
kind-specific handler call is abstracted into its outcome (a normal result
or a raised exception message); both branches produce the result
dictionary, so the function is total and never raises to its caller. -/
def _execute_step (handlerOutcome : Except String String)
    (start_time end_time : ℕ) : StepExecResult :=
  match handlerOutcome with
  | Except.ok r =>
      { success := true
        result := some r
        execution_time := (end_time : ℚ) - (start_time : ℚ)
        timestamp := end_time }
  | Except.error e =>
      { success := false
        error := some e
        execution_time := (end_time : ℚ) - (start_time : ℚ)
        timestamp := end_time }

/-- Oracle outcome of one iteration's await self._execute_step(step):
either the returned result dictionary, or an exception caught by the
per-step except handler (task_manager.py line 146). -/
inductive StepOutcome where
  | ok (res : StepExecResult)
  | exc (msg : String)
deriving DecidableEq, Repr

/-- The per-step loop of CloudTaskManager._execute_task_steps
(task_manager.py lines 122-159). Arguments i, completed, failed and time
are the loop index, the two local counters and the clock; the function
returns the mutated task together with the final counters and clock.
Early break on a stop decision of _should_continue_after_failure. -/
def runStepsAux (t : TaskResponse) (outcomes : List StepOutcome)
    (i completed failed time : ℕ) : TaskResponse × ℕ × ℕ × ℕ :=
  match outcomes with
  | [] => (t, completed, failed, time)
  | o :: rest =>
    match t.steps[i]? with
    | none => (t, completed, failed, time)
    | some step =>
      match o with
      | StepOutcome.ok res =>
        let step' := { step with
          status := TaskStatus.completed
          result := some res
          execution_time := some res.execution_time }
        let completed' := completed + 1
        let t' := { t with
          steps := t.steps.set i step'
          progress := (completed' : ℚ) / (t.steps.length : ℚ)
          completed_steps := completed'
          updated_at := time }
        runStepsAux t' rest (i+1) completed' failed (time+1)
      | StepOutcome.exc msg =>
        let step' := { step with
          status := TaskStatus.failed
          error_message := some msg }
        let failed' := failed + 1
        let t' := { t with
          steps := t.steps.set i step'
          failed_steps := failed'
          updated_at := time }
        if _should_continue_after_failure t' step' then
          runStepsAux t' rest (i+1) completed failed' (time+1)
        else
          (t', completed, failed', time + 1)
termination_by structural outcomes

/-- The final update after the loop of CloudTaskManager._execute_task_steps
(task_manager.py lines 161-178): execution time, completion timestamp,
final status and success rate, and the pending counter. -/
def finalizeTask (t : TaskResponse) (completed failed : ℕ)
    (start_time end_time : ℕ) : TaskResponse :=
  let t2 := { t with
    execution_time := some ((end_time : ℚ) - (start_time : ℚ))
    completed_at := some end_time
    updated_at := end_time }
  let t3 :=
    if failed = 0 then
      { t2 with status := TaskStatus.completed, success_rate := 1 }
    else if 0 < completed then
      { t2 with status := TaskStatus.completed
                success_rate := (completed : ℚ) / (t2.steps.length : ℚ) }
    else
      { t2 with status := TaskStatus.failed, success_rate := 0 }
  { t3 with pending_steps := t3.steps.length - completed - failed }

/-- The history entry built from a task by CloudTaskManager._add_to_history
(task_manager.py lines 354-364). -/
def historyEntryOf (task : TaskResponse) : HistoryEntry :=
  { task_id := task.id
    title := task.title
    status := task.status
    success_rate := task.success_rate
    execution_time := task.execution_time
    completed_at := task.completed_at
    step_count := task.steps.length
    completed_steps := task.completed_steps
    failed_steps := task.failed_steps }

/-- CloudTaskManager._add_to_history (task_manager.py lines 349-373):
append, then keep only the last max_history entries
(self.task_history[-self.max_history:]). -/
def _add_to_history (mgr : CloudTaskManager) (task : TaskResponse) : CloudTaskManager :=
  let h := mgr.task_history ++ [historyEntryOf task]
  let h' := if mgr.max_history < h.length then h.drop (h.length - mgr.max_history) else h
  { mgr with task_history := h' }

/-- The try block of CloudTaskManager._execute_task_steps
(task_manager.py lines 118-183). An error result models an exception
escaping the per-step handling: either the KeyError of the initial
self.tasks[task_id] lookup, or the injected unexpected error crash. -/
def tryExecuteSteps (mgr : CloudTaskManager) (task_id : String)
    (outcomes : List StepOutcome) (crash : Option String) (start_time : ℕ) :
    Except String CloudTaskManager :=
  match lookupTask mgr.tasks task_id with
  | none => Except.error "KeyError"
  | some task =>
    match crash with
    | some msg => Except.error msg
    | none =>
      let r := runStepsAux task outcomes 0 0 0 (start_time + 1)
      let t' := finalizeTask r.1 r.2.1 r.2.2.1 start_time r.2.2.2
      let mgr1 := { mgr with tasks := updateTaskList (fun _ => t') mgr.tasks task_id }
      Except.ok (_add_to_history mgr1 t')

/-- CloudTaskManager._execute_task_steps (task_manager.py lines 114-196):
the try block, the except handler that forces the task to FAILED with the
error recorded (lines 185-191; when the task lookup itself raised, the
handler has no bound task to mutate, which the identity of updating an
absent key reproduces), and the finally block that removes the in-flight
handle on every exit path (lines 193-196). -/
def _execute_task_steps (mgr : CloudTaskManager) (task_id : String)
    (outcomes : List StepOutcome) (crash : Option String) (start_time : ℕ) :
    CloudTaskManager :=
  let forceFailed : String → TaskResponse → TaskResponse := fun msg t =>
    { t with
      status := TaskStatus.failed
      error_message := some msg
      updated_at := start_time }
  let afterTry :=
    match tryExecuteSteps mgr task_id outcomes crash start_time with
    | Except.ok m => m
    | Except.error msg =>
        { mgr with tasks := updateTaskList (forceFailed msg) mgr.tasks task_id }
  { afterTry with active_tasks := removeHandle afterTry.active_tasks task_id }

/-- CloudTaskManager.execute_task (task_manager.py lines 81-103): reports
already_running without mutating anything when the task is PROCESSING,
otherwise marks the task PROCESSING, registers the in-flight handle and
reports started; a missing task id raises ValueError. -/
def execute_task (mgr : CloudTaskManager) (task_id : String) (now : ℕ) :
    Except String (CloudTaskManager × String) :=
  match lookupTask mgr.tasks task_id with
  | none => Except.error "Task not found"
  | some task =>
    if task.status = TaskStatus.processing then
      Except.ok (mgr, "already_running")
    else
      let markProcessing : TaskResponse → TaskResponse := fun t =>
        { t with
          status := TaskStatus.processing
          started_at := some now
          updated_at := now }
      let mgr1 := { mgr with tasks := updateTaskList markProcessing mgr.tasks task_id }
      let mgr2 := { mgr1 with active_tasks := insertHandle mgr1.active_tasks task_id }
      Except.ok (mgr2, "started")

/-- CloudTaskManager.cancel_task (task_manager.py lines 375-399): a missing
task id raises ValueError; otherwise the in-flight handle, if registered,
is cancelled and removed, and the task status is set to CANCELLED
unconditionally. -/
def cancel_task (mgr : CloudTaskManager) (task_id : String) (now : ℕ) :
    Except String (CloudTaskManager × String) :=
  match lookupTask mgr.tasks task_id with
  | none => Except.error "Task not found"
  | some _ =>
    let markCancelled : TaskResponse → TaskResponse := fun t =>
      { t with
        status := TaskStatus.cancelled
        updated_at := now }
    let mgr1 := { mgr with active_tasks := removeHandle mgr.active_tasks task_id }
    let mgr2 := { mgr1 with tasks := updateTaskList markCancelled mgr1.tasks task_id }
    Except.ok (mgr2, "cancelled")

/-- Folding a sequence of terminal tasks into the history, one
_add_to_history call per task. -/
def appendAllHistory (mgr : CloudTaskManager) (ts : List TaskResponse) : CloudTaskManager :=
  ts.foldl _add_to_history mgr

/-- The state create_task establishes on the counters and derived fields
of a task that has not yet executed. -/
def freshTask (t : TaskResponse) : Prop :=
  t.completed_steps = 0 ∧ t.failed_steps = 0 ∧ t.progress = 0 ∧
  t.total_steps = t.steps.length ∧ t.pending_steps = t.steps.length

/-- The task state observed after the first n iterations of the
step-execution loop started by _execute_task_steps at clock start_time:
because the loop consumes one oracle outcome per iteration, running the
loop on the length-n prefix of the outcomes reproduces exactly the
intermediate state. -/
def midRunTask (t : TaskResponse) (outcomes : List StepOutcome)
    (n start_time : ℕ) : TaskResponse :=
  (runStepsAux t (outcomes.take n) 0 0 0 (start_time + 1)).1

/-- Concrete step used by witnesses and counterexamples. -/
def wStep (n : String) : TaskStep :=
  { id := n, description := n, action := ActionType.click }

/-- Concrete critical step used by witnesses. -/
def wCriticalStep : TaskStep :=
  { id := "c", description := "c", action := ActionType.click,
    parameters := { critical := true } }

/-- Concrete step result used by witnesses and counterexamples. -/
def wRes : StepExecResult := { success := true, execution_time := 0, timestamp := 0 }

/-- Concrete one-step request. -/
def wReq1 : TaskRequest := { title := "t", description := "d", steps := [wStep "a"] }

/-- Concrete one-step task as created. -/
def wTask1 : TaskResponse := create_task wReq1 "id0" 0

/-- Concrete one-step task marked PROCESSING as execute_task leaves it. -/
def wTask1p : TaskResponse :=
  { wTask1 with status := TaskStatus.processing, started_at := some 0 }

/-- Concrete manager holding the processing one-step task with its
in-flight handle registered. -/
def wMgrProc : CloudTaskManager :=
  { tasks := [("id0", wTask1p)], active_tasks := ["id0"], task_history := [] }

/-- Concrete manager holding the one-step task still PENDING. -/
def wMgrPending : CloudTaskManager :=
  { tasks := [("id0", wTask1)], active_tasks := [], task_history := [] }

/-- Concrete COMPLETED (terminal) task. -/
def wDoneTask : TaskResponse := { wTask1 with status := TaskStatus.completed }

/-- Concrete manager holding a COMPLETED task and no in-flight handle. -/
def wMgrDone : CloudTaskManager :=
  { tasks := [("id0", wDoneTask)], active_tasks := [], task_history := [] }

/-- The manager state after cancelling the COMPLETED task. -/
def c2res : CloudTaskManager :=
  match cancel_task wMgrDone "id0" 5 with
  | Except.ok p => p.1
  | Except.error _ => wMgrDone

/-- The manager state after re-executing the COMPLETED task. -/
def c2exec : CloudTaskManager :=
  match execute_task wMgrDone "id0" 5 with
  | Except.ok p => p.1
  | Except.error _ => wMgrDone

/-- Concrete six-step HIGH-priority task: one success, then three
non-critical failures, then two untouched steps. -/
def wReq6 (p : TaskPriority) : TaskRequest :=
  { title := "t6", description := "d6", priority := p,
    steps := [wStep "a", wStep "b", wStep "c", wStep "d", wStep "e", wStep "f"] }

/-- Concrete six-step HIGH-priority task. -/
def wTaskHigh6 : TaskResponse := create_task (wReq6 TaskPriority.high) "h6" 0

/-- Concrete six-step MEDIUM-priority task. -/
def wTaskMed6 : TaskResponse := create_task (wReq6 TaskPriority.medium) "m6" 0

/-- Concrete empty-step request. -/
def wReq0 : TaskRequest := { title := "t0", description := "d0", steps := [] }

/-- Concrete empty-step task. -/
def wTask0 : TaskResponse := create_task wReq0 "id9" 0

/-- Concrete manager holding the empty-step task. -/
def wMgr0 : CloudTaskManager :=
  { tasks := [("id9", wTask0)], active_tasks := ["id9"], task_history := [] }

/-- Concrete capacity-2 manager exercising the history bound. -/
def wHistMgr : CloudTaskManager :=
  { tasks := [], active_tasks := [], task_history := [], max_history := 2 }

/-- Concrete distinct tasks appended to the history by the C7 witness. -/
def wTaskA : TaskResponse := create_task { title := "A", description := "", steps := [] } "a" 0

/-- Second distinct task for the history witness. -/
def wTaskB : TaskResponse := create_task { title := "B", description := "", steps := [] } "b" 0

/-- Third distinct task for the history witness. -/
def wTaskC : TaskResponse := create_task { title := "C", description := "", steps := [] } "c" 0

/-- Looking up the key that was just updated returns the updated value. -/
theorem lookupTask_updateTaskList (f : TaskResponse → TaskResponse) :
    ∀ (l : List (String × TaskResponse)) (tid : String),
      lookupTask (updateTaskList f l tid) tid = (lookupTask l tid).map f := by
  intro l
  induction l with
  | nil => intro tid; simp [lookupTask, updateTaskList]
  | cons kv rest ih =>
    intro tid
    obtain ⟨k, v⟩ := kv
    by_cases hk : k = tid
    · simp [lookupTask, updateTaskList, hk]
    · simp [lookupTask, updateTaskList, hk, ih]

/-- A removed handle is no longer registered. -/
theorem not_mem_removeHandle (l : List String) (tid : String) :
    tid ∉ removeHandle l tid := by
  simp [removeHandle, List.mem_filter]

/-- Core loop invariant of the step-execution loop: the counter fields of
the task track the local counters, progress stays equal to the completed
counter divided by the step count, the fields the loop never writes are
preserved, and the counters together never exceed the number of steps not
yet visited. -/
theorem runStepsAux_main (os : List StepOutcome) :
    ∀ (t : TaskResponse) (i c f time : ℕ),
      t.completed_steps = c → t.failed_steps = f →
      t.progress = (c : ℚ) / (t.steps.length : ℚ) →
      (runStepsAux t os i c f time).1.completed_steps = (runStepsAux t os i c f time).2.1 ∧
      (runStepsAux t os i c f time).1.failed_steps = (runStepsAux t os i c f time).2.2.1 ∧
      (runStepsAux t os i c f time).1.progress =
        ((runStepsAux t os i c f time).2.1 : ℚ) /
          ((runStepsAux t os i c f time).1.steps.length : ℚ) ∧
      (runStepsAux t os i c f time).1.steps.length = t.steps.length ∧
      (runStepsAux t os i c f time).1.total_steps = t.total_steps ∧
      (runStepsAux t os i c f time).1.status = t.status ∧
      (runStepsAux t os i c f time).1.success_rate = t.success_rate ∧
      (runStepsAux t os i c f time).1.pending_steps = t.pending_steps ∧
      (runStepsAux t os i c f time).1.completed_at = t.completed_at ∧
      (runStepsAux t os i c f time).1.execution_time = t.execution_time ∧
      (runStepsAux t os i c f time).2.1 + (runStepsAux t os i c f time).2.2.1
        ≤ c + f + (t.steps.length - i) := by
  induction os with
  | nil =>
    intro t i c f time hc hf hp
    simp [runStepsAux, hc, hf, hp]
  | cons o rest ih =>
    intro t i c f time hc hf hp
    cases hg : t.steps[i]? with
    | none => simp [runStepsAux, hg, hc, hf, hp]
    | some step =>
      obtain ⟨hi, -⟩ := List.getElem?_eq_some.mp hg
      cases o with
      | ok res =>
        have hstep : runStepsAux t (StepOutcome.ok res :: rest) i c f time
            = runStepsAux { t with
                steps := t.steps.set i { step with
                  status := TaskStatus.completed
                  result := some res
                  execution_time := some res.execution_time }
                progress := ((c + 1 : ℕ) : ℚ) / (t.steps.length : ℚ)
                completed_steps := c + 1
                updated_at := time } rest (i+1) (c+1) f (time+1) := by
          rw [runStepsAux, hg]
        rw [hstep]
        have h := ih { t with
            steps := t.steps.set i { step with
              status := TaskStatus.completed
              result := some res
              execution_time := some res.execution_time }
            progress := ((c + 1 : ℕ) : ℚ) / (t.steps.length : ℚ)
            completed_steps := c + 1
            updated_at := time } (i+1) (c+1) f (time+1) rfl hf
          (by simp [List.length_set])
        simp only [List.length_set] at h ⊢
        refine ⟨h.1, h.2.1, h.2.2.1, h.2.2.2.1, h.2.2.2.2.1, h.2.2.2.2.2.1,
          h.2.2.2.2.2.2.1, h.2.2.2.2.2.2.2.1, h.2.2.2.2.2.2.2.2.1,
          h.2.2.2.2.2.2.2.2.2.1, ?_⟩
        have hb := h.2.2.2.2.2.2.2.2.2.2
        omega
      | exc msg =>
        by_cases hcont : _should_continue_after_failure { t with
            steps := t.steps.set i { step with
              status := TaskStatus.failed
              error_message := some msg }
            failed_steps := f + 1
            updated_at := time } { step with
              status := TaskStatus.failed
              error_message := some msg } = true
        · have hstep : runStepsAux t (StepOutcome.exc msg :: rest) i c f time
              = runStepsAux { t with
                  steps := t.steps.set i { step with
                    status := TaskStatus.failed
                    error_message := some msg }
                  failed_steps := f + 1
                  updated_at := time } rest (i+1) c (f+1) (time+1) := by
            simp only [runStepsAux, hg, if_pos hcont]
          rw [hstep]
          have h := ih { t with
              steps := t.steps.set i { step with
                status := TaskStatus.failed
                error_message := some msg }
              failed_steps := f + 1
              updated_at := time } (i+1) c (f+1) (time+1) hc rfl
            (by simp only [List.length_set]; exact hp)
          simp only [List.length_set] at h ⊢
          refine ⟨h.1, h.2.1, h.2.2.1, h.2.2.2.1, h.2.2.2.2.1, h.2.2.2.2.2.1,
            h.2.2.2.2.2.2.1, h.2.2.2.2.2.2.2.1, h.2.2.2.2.2.2.2.2.1,
            h.2.2.2.2.2.2.2.2.2.1, ?_⟩
          have hb := h.2.2.2.2.2.2.2.2.2.2
          omega
        · have hstep : runStepsAux t (StepOutcome.exc msg :: rest) i c f time
              = ({ t with
                  steps := t.steps.set i { step with
                    status := TaskStatus.failed
                    error_message := some msg }
                  failed_steps := f + 1
                  updated_at := time }, c, f + 1, time + 1) := by
            simp only [runStepsAux, hg, if_neg hcont]
          rw [hstep]
          refine ⟨hc, rfl, ?_, List.length_set .., rfl, rfl, rfl, rfl, rfl, rfl, ?_⟩
          · simp only [List.length_set]
            exact hp
          · show c + (f + 1) ≤ c + f + (t.steps.length - i)
            omega

/-- The loop never touches steps at positions before the loop index. -/
theorem runStepsAux_get?_lt (os : List StepOutcome) :
    ∀ (t : TaskResponse) (i c f time j : ℕ), j < i →
      (runStepsAux t os i c f time).1.steps[j]? = t.steps[j]? := by
  induction os with
  | nil => intro t i c f time j hj; simp [runStepsAux]
  | cons o rest ih =>
    intro t i c f time j hj
    rw [runStepsAux]
    cases hg : t.steps[i]? with
    | none => simp
    | some step =>
      cases o with
      | ok res =>
        simp only
        rw [ih _ (i+1) _ _ _ j (by omega)]
        exact List.getElem?_set_ne (by omega)
      | exc msg =>
        simp only
        split
        · rw [ih _ (i+1) _ _ _ j (by omega)]
          exact List.getElem?_set_ne (by omega)
        · exact List.getElem?_set_ne (by omega)

/-- One append never grows the history beyond the capacity. -/
theorem add_to_history_length_le (mgr : CloudTaskManager) (task : TaskResponse)
    (h : mgr.task_history.length ≤ mgr.max_history) :
    (_add_to_history mgr task).task_history.length ≤ mgr.max_history := by
  simp only [_add_to_history]
  by_cases hlt : mgr.max_history <
      (mgr.task_history ++ [historyEntryOf task]).length
  · simp only [if_pos hlt, List.length_drop]
    omega
  · simp only [if_neg hlt]
    simp only [List.length_append, List.length_singleton] at hlt ⊢
    omega

/-- Appending to the history preserves the sliding-window characterisation:
if the history holds the suffix of the log of all appended entries that
fits the capacity, it still does after one more append. -/
theorem add_to_history_drop (mgr : CloudTaskManager) (task : TaskResponse)
    (L : List HistoryEntry)
    (h : mgr.task_history = L.drop (L.length - mgr.max_history)) :
    (_add_to_history mgr task).task_history
      = (L ++ [historyEntryOf task]).drop
          ((L ++ [historyEntryOf task]).length - mgr.max_history) := by
  simp only [_add_to_history, h]
  by_cases hcap : mgr.max_history ≤ L.length
  · have hm : (L.drop (L.length - mgr.max_history)).length = mgr.max_history := by
      rw [List.length_drop]; omega
    rw [if_pos (by rw [List.length_append, hm, List.length_singleton]; omega)]
    rw [List.length_append, hm, List.length_singleton,
      show mgr.max_history + 1 - mgr.max_history = 1 from by omega]
    rw [List.drop_append_eq_append_drop, List.drop_append_eq_append_drop,
      List.drop_drop, hm, List.length_append, List.length_singleton,
      show L.length - mgr.max_history + 1 = L.length + 1 - mgr.max_history from by omega,
      show (1 : ℕ) - mgr.max_history
          = L.length + 1 - mgr.max_history - L.length from by omega]
  · rw [show L.length - mgr.max_history = 0 from by omega, List.drop_zero]
    rw [if_neg (by rw [List.length_append, List.length_singleton]; omega)]
    rw [List.length_append, List.length_singleton,
      show L.length + 1 - mgr.max_history = 0 from by omega, List.drop_zero]

/-- Folding appends keeps the history equal to the suffix, fitting the
capacity, of the log of all entries ever appended, and preserves the
capacity. -/
theorem appendAllHistory_spec (ts : List TaskResponse) :
    ∀ (mgr : CloudTaskManager) (L : List HistoryEntry),
      mgr.task_history = L.drop (L.length - mgr.max_history) →
      (appendAllHistory mgr ts).task_history
        = (L ++ ts.map historyEntryOf).drop
            ((L ++ ts.map historyEntryOf).length - mgr.max_history) ∧
      (appendAllHistory mgr ts).max_history = mgr.max_history := by
  induction ts with
  | nil =>
    intro mgr L h
    constructor
    · simpa [appendAllHistory] using h
    · rfl
  | cons task ts ih =>
    intro mgr L h
    have h1 := add_to_history_drop mgr task L h
    have hstep : appendAllHistory mgr (task :: ts)
        = appendAllHistory (_add_to_history mgr task) ts := rfl
    have hmax : (_add_to_history mgr task).max_history = mgr.max_history := rfl
    have h2 := ih (_add_to_history mgr task) (L ++ [historyEntryOf task])
      (by rw [h1, hmax])
    rw [← hstep, hmax] at h2
    refine ⟨?_, h2.2⟩
    rw [h2.1]
    simp [List.append_assoc]

/-- create_task establishes the fresh-task counter state. -/
theorem create_task_fresh (req : TaskRequest) (task_id : String) (now : ℕ) :
    freshTask (create_task req task_id now) := by
  refine ⟨rfl, rfl, rfl, rfl, rfl⟩

/-- The finally block: after the step-execution routine returns, by any
path, the task id is no longer registered in the in-flight registry. -/
theorem execute_steps_not_active (mgr : CloudTaskManager) (task_id : String)
    (outcomes : List StepOutcome) (crash : Option String) (start_time : ℕ) :
    task_id ∉ (_execute_task_steps mgr task_id outcomes crash start_time).active_tasks := by
  unfold _execute_task_steps
  exact not_mem_removeHandle _ _

/-- Normal path of the routine: the stored task afterwards is the loop
result passed through the final update. -/
theorem execute_steps_normal (mgr : CloudTaskManager) (task_id : String)
    (outcomes : List StepOutcome) (start_time : ℕ) (task : TaskResponse)
    (hl : lookupTask mgr.tasks task_id = some task) :
    lookupTask (_execute_task_steps mgr task_id outcomes none start_time).tasks task_id
      = some (finalizeTask (runStepsAux task outcomes 0 0 0 (start_time + 1)).1
          (runStepsAux task outcomes 0 0 0 (start_time + 1)).2.1
          (runStepsAux task outcomes 0 0 0 (start_time + 1)).2.2.1
          start_time
          (runStepsAux task outcomes 0 0 0 (start_time + 1)).2.2.2) := by
  unfold _execute_task_steps tryExecuteSteps _add_to_history
  simp only [hl]
  rw [lookupTask_updateTaskList, hl]
  rfl

/-- Crash path of the routine: an unexpected error escaping the per-step
scope forces the stored task to FAILED with the error recorded. -/
theorem execute_steps_crash (mgr : CloudTaskManager) (task_id : String)
    (outcomes : List StepOutcome) (msg : String) (start_time : ℕ)
    (task : TaskResponse)
    (hl : lookupTask mgr.tasks task_id = some task) :
    lookupTask (_execute_task_steps mgr task_id outcomes (some msg) start_time).tasks task_id
      = some { task with
          status := TaskStatus.failed
          error_message := some msg
          updated_at := start_time } := by
  unfold _execute_task_steps tryExecuteSteps
  simp only [hl]
  rw [lookupTask_updateTaskList, hl]
  rfl

/-- Fields of the final update that do not depend on the status branch. -/
theorem finalizeTask_fields (t : TaskResponse) (completed failed st et : ℕ) :
    (finalizeTask t completed failed st et).completed_steps = t.completed_steps ∧
    (finalizeTask t completed failed st et).failed_steps = t.failed_steps ∧
    (finalizeTask t completed failed st et).progress = t.progress ∧
    (finalizeTask t completed failed st et).total_steps = t.total_steps ∧
    (finalizeTask t completed failed st et).steps = t.steps ∧
    (finalizeTask t completed failed st et).pending_steps
      = t.steps.length - completed - failed ∧
    (finalizeTask t completed failed st et).completed_at = some et ∧
    (finalizeTask t completed failed st et).execution_time
      = some ((et : ℚ) - (st : ℚ)) := by
  unfold finalizeTask
  by_cases h0 : failed = 0
  · simp [h0]
  · by_cases h1 : 0 < completed
    · simp [h0, h1]
    · simp [h0, h1]

/-- Status and success rate of the final update, by branch. -/
theorem finalizeTask_status (t : TaskResponse) (completed failed st et : ℕ) :
    (failed = 0 →
      (finalizeTask t completed failed st et).status = TaskStatus.completed ∧
      (finalizeTask t completed failed st et).success_rate = 1) ∧
    (failed ≠ 0 → 0 < completed →
      (finalizeTask t completed failed st et).status = TaskStatus.completed ∧
      (finalizeTask t completed failed st et).success_rate
        = (completed : ℚ) / (t.steps.length : ℚ)) ∧
    (failed ≠ 0 → completed = 0 →
      (finalizeTask t completed failed st et).status = TaskStatus.failed ∧
      (finalizeTask t completed failed st et).success_rate = 0) := by
  unfold finalizeTask
  refine ⟨fun h0 => ?_, fun h0 h1 => ?_, fun h0 h1 => ?_⟩
  · simp [h0]
  · simp [h0, h1]
  · simp [h0, h1]

/-- A task with no steps passes through the loop unchanged. -/
theorem runStepsAux_nil_steps (os : List StepOutcome) (t : TaskResponse)
    (i c f time : ℕ) (h : t.steps = []) :
    runStepsAux t os i c f time = (t, c, f, time) := by
  cases os with
  | nil => rfl
  | cons o rest =>
    rw [runStepsAux]
    simp [h]

/-- Claim C1, counterexample: the conjunction of the two invariants fails
at an observed instant between step executions. After the single
(successful) step of a one-step PROCESSING task has executed but before
the final update of the routine, the task shows completed_steps = 1,
failed_steps = 0 and pending_steps = 1 against total_steps = 1, because
the loop body never updates pending_steps: the sum is 2, not 1. -/
theorem c1_counterexample :
    ¬ ((midRunTask wTask1p [StepOutcome.ok wRes] 1 0).completed_steps
        + (midRunTask wTask1p [StepOutcome.ok wRes] 1 0).failed_steps
        + (midRunTask wTask1p [StepOutcome.ok wRes] 1 0).pending_steps
        = (midRunTask wTask1p [StepOutcome.ok wRes] 1 0).total_steps) := by
  decide

/-- Claim C1, amended: the counter invariant
completed_steps + failed_steps + pending_steps = total_steps holds at
creation and again after the final update of the step-execution routine,
but not between step executions (pending_steps keeps its pre-execution
value until the final update); the progress invariant
progress = completed_steps / total_steps holds at creation, at every
observed mid-run instant, and after the final update. -/
theorem c1_invariant :
    (∀ (req : TaskRequest) (task_id : String) (now : ℕ),
      (create_task req task_id now).completed_steps
        + (create_task req task_id now).failed_steps
        + (create_task req task_id now).pending_steps
        = (create_task req task_id now).total_steps ∧
      (create_task req task_id now).progress
        = ((create_task req task_id now).completed_steps : ℚ)
            / ((create_task req task_id now).total_steps : ℚ)) ∧
    (∀ (mgr : CloudTaskManager) (task_id : String) (outcomes : List StepOutcome)
        (start_time : ℕ) (task : TaskResponse),
      lookupTask mgr.tasks task_id = some task → freshTask task →
      ∃ t', lookupTask
          (_execute_task_steps mgr task_id outcomes none start_time).tasks task_id
          = some t' ∧
        t'.completed_steps + t'.failed_steps + t'.pending_steps = t'.total_steps ∧
        t'.progress = (t'.completed_steps : ℚ) / (t'.total_steps : ℚ)) ∧
    (∀ (task : TaskResponse) (outcomes : List StepOutcome) (n start_time : ℕ),
      freshTask task →
      (midRunTask task outcomes n start_time).progress
        = ((midRunTask task outcomes n start_time).completed_steps : ℚ)
            / ((midRunTask task outcomes n start_time).total_steps : ℚ)) := by
  refine ⟨?_, ?_, ?_⟩
  · intro req task_id now
    constructor
    · simp [create_task]
    · simp [create_task]
  · intro mgr task_id outcomes start_time task hl hfresh
    obtain ⟨hc0, hf0, hp0, ht0, hpend0⟩ := hfresh
    refine ⟨_, execute_steps_normal mgr task_id outcomes start_time task hl, ?_, ?_⟩
    all_goals
      have hmain := runStepsAux_main outcomes task 0 0 0 (start_time + 1) hc0 hf0
        (by rw [hp0]; simp)
      have hfin := finalizeTask_fields
        (runStepsAux task outcomes 0 0 0 (start_time + 1)).1
        (runStepsAux task outcomes 0 0 0 (start_time + 1)).2.1
        (runStepsAux task outcomes 0 0 0 (start_time + 1)).2.2.1
        start_time
        (runStepsAux task outcomes 0 0 0 (start_time + 1)).2.2.2
    · rw [hfin.1, hfin.2.1, hfin.2.2.2.2.2.1, hfin.2.2.2.1, hmain.1, hmain.2.1,
        hmain.2.2.2.2.1, ht0]
      have hbound := hmain.2.2.2.2.2.2.2.2.2.2
      have hlen := hmain.2.2.2.1
      omega
    · rw [hfin.2.2.1, hfin.1, hfin.2.2.2.1, hmain.2.2.1, hmain.1, hmain.2.2.2.2.1,
        ht0, hmain.2.2.2.1]
  · intro task outcomes n start_time hfresh
    obtain ⟨hc0, hf0, hp0, ht0, hpend0⟩ := hfresh
    have hmain := runStepsAux_main (outcomes.take n) task 0 0 0 (start_time + 1) hc0 hf0
      (by rw [hp0]; simp)
    unfold midRunTask
    rw [hmain.2.2.1, hmain.1]
    have htot : (runStepsAux task (outcomes.take n) 0 0 0 (start_time + 1)).1.total_steps
        = task.total_steps := hmain.2.2.2.2.1
    rw [htot, ht0, hmain.2.2.2.1]

/-- Claim C1, witness: the amended invariant evaluated on the concrete
one-step scenario. -/
theorem c1_invariant_witness :
    ((create_task wReq1 "id0" 0).completed_steps
      + (create_task wReq1 "id0" 0).failed_steps
      + (create_task wReq1 "id0" 0).pending_steps
      = (create_task wReq1 "id0" 0).total_steps) ∧
    ((lookupTask (_execute_task_steps wMgrProc "id0" [StepOutcome.ok wRes] none 0).tasks
        "id0").getD wTask1p).completed_steps
      + ((lookupTask (_execute_task_steps wMgrProc "id0" [StepOutcome.ok wRes] none 0).tasks
        "id0").getD wTask1p).failed_steps
      + ((lookupTask (_execute_task_steps wMgrProc "id0" [StepOutcome.ok wRes] none 0).tasks
        "id0").getD wTask1p).pending_steps
      = ((lookupTask (_execute_task_steps wMgrProc "id0" [StepOutcome.ok wRes] none 0).tasks
        "id0").getD wTask1p).total_steps ∧
    (midRunTask wTask1p [StepOutcome.ok wRes] 1 0).progress
      = ((midRunTask wTask1p [StepOutcome.ok wRes] 1 0).completed_steps : ℚ)
          / ((midRunTask wTask1p [StepOutcome.ok wRes] 1 0).total_steps : ℚ) := by
  refine ⟨(c1_invariant.1 wReq1 "id0" 0).1, ?_, ?_⟩
  · obtain ⟨t', hl, hsum, hprog⟩ :=
      c1_invariant.2.1 wMgrProc "id0" [StepOutcome.ok wRes] 0 wTask1p rfl
        ⟨rfl, rfl, rfl, rfl, rfl⟩
    rw [hl]
    exact hsum
  · exact c1_invariant.2.2 wTask1p [StepOutcome.ok wRes] 1 0 ⟨rfl, rfl, rfl, rfl, rfl⟩

/-- Claim C2, counterexample: cancelling an already-terminal task does
not leave its status unchanged. The concrete manager wMgrDone holds a
COMPLETED task; cancel_task succeeds and rewrites its status to
CANCELLED, so a terminal task is neither immutable nor terminal exactly
once. -/
theorem c2_counterexample :
    wDoneTask.status = TaskStatus.completed ∧
    (lookupTask c2res.tasks "id0").map TaskResponse.status
      = some TaskStatus.cancelled := by
  decide

/-- Claim C2, amended: tasks are not immutable after reaching a terminal
status. cancel_task on any existing task sets its status to CANCELLED
regardless of the prior status (in particular it moves a COMPLETED or
FAILED task to CANCELLED), and execute_task refuses only tasks whose
status is PROCESSING, so a terminal task can be started again and moved
back to PROCESSING. -/
theorem c2_terminal_mutable :
    ∀ (mgr : CloudTaskManager) (task_id : String) (now : ℕ) (task : TaskResponse),
      lookupTask mgr.tasks task_id = some task →
      (∃ m, cancel_task mgr task_id now = Except.ok (m, "cancelled") ∧
        (lookupTask m.tasks task_id).map TaskResponse.status
          = some TaskStatus.cancelled) ∧
      (task.status ≠ TaskStatus.processing →
        ∃ m, execute_task mgr task_id now = Except.ok (m, "started") ∧
          (lookupTask m.tasks task_id).map TaskResponse.status
            = some TaskStatus.processing) := by
  intro mgr task_id now task hl
  constructor
  · unfold cancel_task
    simp only [hl]
    refine ⟨_, rfl, ?_⟩
    rw [lookupTask_updateTaskList, hl]
    rfl
  · intro hs
    unfold execute_task
    simp only [hl, if_neg hs]
    refine ⟨_, rfl, ?_⟩
    rw [lookupTask_updateTaskList, hl]
    rfl

/-- Claim C2, witness: the amended statement evaluated on the concrete
COMPLETED task. -/
theorem c2_terminal_mutable_witness :
    (lookupTask c2res.tasks "id0").map TaskResponse.status
      = some TaskStatus.cancelled ∧
    (lookupTask c2exec.tasks "id0").map TaskResponse.status
      = some TaskStatus.processing := by
  obtain ⟨⟨m, hm, hms⟩, hex⟩ :=
    c2_terminal_mutable wMgrDone "id0" 5 wDoneTask rfl
  obtain ⟨m2, hm2, hms2⟩ := hex (by decide)
  constructor
  · have : c2res = m := by
      unfold c2res
      rw [hm]
    rw [this]
    exact hms
  · have : c2exec = m2 := by
      unfold c2exec
      rw [hm2]
    rw [this]
    exact hms2

/-- Claim C3: when the step-execution routine finishes its loop, by
exhaustion or early break, the stored task satisfies the final-state
derivation: failed_steps = 0 gives COMPLETED with success_rate 1;
otherwise completed_steps > 0 gives COMPLETED with
success_rate = completed_steps / total_steps; otherwise FAILED with
success_rate 0; pending_steps = total_steps - completed_steps -
failed_steps, and completed_at and execution_time are set. -/
theorem c3_final_state :
    ∀ (mgr : CloudTaskManager) (task_id : String) (outcomes : List StepOutcome)
      (start_time : ℕ) (task : TaskResponse),
      lookupTask mgr.tasks task_id = some task → freshTask task →
      ∃ t', lookupTask
          (_execute_task_steps mgr task_id outcomes none start_time).tasks task_id
          = some t' ∧
        (t'.failed_steps = 0 →
          t'.status = TaskStatus.completed ∧ t'.success_rate = 1) ∧
        (t'.failed_steps ≠ 0 → 0 < t'.completed_steps →
          t'.status = TaskStatus.completed ∧
          t'.success_rate = (t'.completed_steps : ℚ) / (t'.total_steps : ℚ)) ∧
        (t'.failed_steps ≠ 0 → t'.completed_steps = 0 →
          t'.status = TaskStatus.failed ∧ t'.success_rate = 0) ∧
        t'.pending_steps = t'.total_steps - t'.completed_steps - t'.failed_steps ∧
        t'.completed_at.isSome = true ∧
        t'.execution_time.isSome = true := by
  intro mgr task_id outcomes start_time task hl hfresh
  obtain ⟨hc0, hf0, hp0, ht0, hpend0⟩ := hfresh
  refine ⟨_, execute_steps_normal mgr task_id outcomes start_time task hl,
    ?_, ?_, ?_, ?_, ?_, ?_⟩
  all_goals
    have hmain := runStepsAux_main outcomes task 0 0 0 (start_time + 1) hc0 hf0
      (by rw [hp0]; simp)
    have hfin := finalizeTask_fields
      (runStepsAux task outcomes 0 0 0 (start_time + 1)).1
      (runStepsAux task outcomes 0 0 0 (start_time + 1)).2.1
      (runStepsAux task outcomes 0 0 0 (start_time + 1)).2.2.1
      start_time
      (runStepsAux task outcomes 0 0 0 (start_time + 1)).2.2.2
    have hstat := finalizeTask_status
      (runStepsAux task outcomes 0 0 0 (start_time + 1)).1
      (runStepsAux task outcomes 0 0 0 (start_time + 1)).2.1
      (runStepsAux task outcomes 0 0 0 (start_time + 1)).2.2.1
      start_time
      (runStepsAux task outcomes 0 0 0 (start_time + 1)).2.2.2
  · intro hf
    rw [hfin.2.1, hmain.2.1] at hf
    exact hstat.1 hf
  · intro hf hcpos
    rw [hfin.2.1, hmain.2.1] at hf
    rw [hfin.1, hmain.1] at hcpos
    have h := hstat.2.1 hf hcpos
    refine ⟨h.1, ?_⟩
    rw [h.2, hfin.1, hmain.1, hfin.2.2.2.1, hmain.2.2.2.2.1, ht0, hmain.2.2.2.1]
  · intro hf hc
    rw [hfin.2.1, hmain.2.1] at hf
    rw [hfin.1, hmain.1] at hc
    exact hstat.2.2 hf hc
  · rw [hfin.2.2.2.2.2.1, hfin.1, hfin.2.1, hfin.2.2.2.1, hmain.1, hmain.2.1,
      hmain.2.2.2.2.1, ht0, hmain.2.2.2.1]
  · rw [hfin.2.2.2.2.2.2.1]
    rfl
  · rw [hfin.2.2.2.2.2.2.2]
    rfl

/-- Claim C3, witness: the final-state derivation on a concrete run of the
one-step task whose step succeeds (failed_steps = 0, so COMPLETED with
success_rate 1, pending_steps 0, completed_at set). -/
theorem c3_final_state_witness :
    ((lookupTask (_execute_task_steps wMgrProc "id0" [StepOutcome.ok wRes] none 0).tasks
        "id0").getD wTask1p).status = TaskStatus.completed ∧
    ((lookupTask (_execute_task_steps wMgrProc "id0" [StepOutcome.ok wRes] none 0).tasks
        "id0").getD wTask1p).success_rate = 1 ∧
    ((lookupTask (_execute_task_steps wMgrProc "id0" [StepOutcome.ok wRes] none 0).tasks
        "id0").getD wTask1p).pending_steps = 0 ∧
    ((lookupTask (_execute_task_steps wMgrProc "id0" [StepOutcome.ok wRes] none 0).tasks
        "id0").getD wTask1p).completed_at.isSome = true := by
  obtain ⟨t', hl, h1, h2, h3, h4, h5, h6⟩ :=
    c3_final_state wMgrProc "id0" [StepOutcome.ok wRes] 0 wTask1p rfl
      ⟨rfl, rfl, rfl, rfl, rfl⟩
  have hgd : (lookupTask
      (_execute_task_steps wMgrProc "id0" [StepOutcome.ok wRes] none 0).tasks
      "id0").getD wTask1p = t' := by
    rw [hl]
    rfl
  rw [hgd]
  have hfz : t'.failed_steps = 0 := by rw [← hgd]; decide
  have hcone : t'.completed_steps = 1 := by rw [← hgd]; decide
  have htot : t'.total_steps = 1 := by rw [← hgd]; decide
  obtain ⟨hs, hr⟩ := h1 hfz
  refine ⟨hs, hr, ?_, h5⟩
  rw [h4, hcone, htot, hfz]

/-- The policy stops on a non-critical failure when the priority is HIGH
and more than two steps have failed, even with a failure ratio not above
one half. -/
theorem policy_stop_high (task : TaskResponse) (s : TaskStep)
    (hcrit : s.parameters.critical = false)
    (hr : ¬((task.failed_steps : ℚ) / (task.steps.length : ℚ) > 1/2))
    (hpri : task.priority = TaskPriority.high)
    (hfail : 2 < task.failed_steps) :
    _should_continue_after_failure task s = false := by
  unfold _should_continue_after_failure
  rw [if_neg (by simp [hcrit]), if_neg hr, if_pos ⟨hpri, hfail⟩]

/-- The policy continues on a non-critical failure when the ratio check
and the HIGH-priority budget check both pass. -/
theorem policy_continue (task : TaskResponse) (s : TaskStep)
    (hcrit : s.parameters.critical = false)
    (hr : ¬((task.failed_steps : ℚ) / (task.steps.length : ℚ) > 1/2))
    (h3 : ¬(task.priority = TaskPriority.high ∧ 2 < task.failed_steps)) :
    _should_continue_after_failure task s = true := by
  unfold _should_continue_after_failure
  rw [if_neg (by simp [hcrit]), if_neg hr, if_neg h3]

/-- Claim C4: the continuation policy is a pure deterministic function of
the task priority, the failed and total step counts and the failed step's
critical parameter: for a task with at least one step it returns stop
exactly when the step is critical, or the failure ratio strictly exceeds
one half, or the priority is HIGH with more than two failures; otherwise
it continues (URGENT priority is not subject to the budget rule, which
requires priority = HIGH), and repeated evaluation agrees since the
function is deterministic by construction. -/
theorem c4_policy (task : TaskResponse) (failed_step : TaskStep)
    (htotal : 1 ≤ task.steps.length) :
    ((_should_continue_after_failure task failed_step = false) ↔
      (failed_step.parameters.critical = true ∨
       (task.failed_steps : ℚ) / (task.steps.length : ℚ) > 1/2 ∨
       (task.priority = TaskPriority.high ∧ 2 < task.failed_steps))) ∧
    _should_continue_after_failure task failed_step
      = _should_continue_after_failure task failed_step := by
  refine ⟨?_, rfl⟩
  unfold _should_continue_after_failure
  split_ifs with h1 h2 h3
  · simp_all
  · simp_all
  · simp_all
  · simp_all

/-- Claim C4, witness: the policy applied to a critical failed step of the
concrete six-step HIGH-priority task decides stop. -/
theorem c4_policy_witness :
    _should_continue_after_failure wTaskHigh6 wCriticalStep = false := by
  exact (c4_policy wTaskHigh6 wCriticalStep (by decide)).1.mpr (Or.inl rfl)

/-- Claim C5: at the third non-critical step failure, with at least one
prior success recorded in the completed counter and a failure ratio not
exceeding one half, a HIGH-priority task stops immediately: the loop
returns at once, every step other than the just-failed one is untouched
(so the not-yet-visited steps stay PENDING), and the failed counter is 3;
a MEDIUM-priority task at the same point continues with the remaining
outcomes. -/
theorem c5_priority_budget (t : TaskResponse) (step : TaskStep) (msg : String)
    (rest : List StepOutcome) (i c time : ℕ)
    (hstep : t.steps[i]? = some step)
    (hcrit : step.parameters.critical = false)
    (hratio : (3 : ℚ) / (t.steps.length : ℚ) ≤ 1/2)
    (hprior : 1 ≤ c) :
    (t.priority = TaskPriority.high →
      runStepsAux t (StepOutcome.exc msg :: rest) i c 2 time
        = ({ t with
            steps := t.steps.set i { step with
              status := TaskStatus.failed
              error_message := some msg }
            failed_steps := 3
            updated_at := time }, c, 3, time + 1) ∧
      ∀ j, j ≠ i →
        (runStepsAux t (StepOutcome.exc msg :: rest) i c 2 time).1.steps[j]?
          = t.steps[j]?) ∧
    (t.priority = TaskPriority.medium →
      runStepsAux t (StepOutcome.exc msg :: rest) i c 2 time
        = runStepsAux { t with
            steps := t.steps.set i { step with
              status := TaskStatus.failed
              error_message := some msg }
            failed_steps := 3
            updated_at := time } rest (i+1) c 3 (time+1)) := by
  have hr : ¬((((2:ℕ) + 1 : ℕ) : ℚ)
      / ((t.steps.set i { step with
          status := TaskStatus.failed
          error_message := some msg }).length : ℚ) > 1/2) := by
    rw [List.length_set]
    push_cast
    norm_num
    linarith [hratio]
  constructor
  · intro hpri
    have hpol : _should_continue_after_failure { t with
        steps := t.steps.set i { step with
          status := TaskStatus.failed
          error_message := some msg }
        failed_steps := 2 + 1
        updated_at := time } { step with
          status := TaskStatus.failed
          error_message := some msg } = false := by
      refine policy_stop_high _ _ hcrit hr hpri ?_
      show 2 < 2 + 1
      norm_num
    have hrun : runStepsAux t (StepOutcome.exc msg :: rest) i c 2 time
        = ({ t with
            steps := t.steps.set i { step with
              status := TaskStatus.failed
              error_message := some msg }
            failed_steps := 3
            updated_at := time }, c, 3, time + 1) := by
      simp only [runStepsAux, hstep]
      rw [hpol]
      rfl
    refine ⟨hrun, ?_⟩
    intro j hj
    rw [hrun]
    exact List.getElem?_set_ne (Ne.symm hj)
  · intro hpri
    have hpol : _should_continue_after_failure { t with
        steps := t.steps.set i { step with
          status := TaskStatus.failed
          error_message := some msg }
        failed_steps := 2 + 1
        updated_at := time } { step with
          status := TaskStatus.failed
          error_message := some msg } = true := by
      refine policy_continue _ _ hcrit hr ?_
      intro hand
      rw [hpri] at hand
      exact absurd hand.1 (by decide)
    simp only [runStepsAux, hstep]
    rw [hpol]
    rfl

/-- Claim C5, witness: on the concrete six-step tasks, at the third
failure after one success the HIGH run stops (later success not counted,
step five still PENDING) and the MEDIUM run continues (the success after
the third failure is counted). -/
theorem c5_priority_budget_witness :
    (runStepsAux wTaskHigh6 [StepOutcome.exc "boom", StepOutcome.ok wRes] 3 1 2 9).2.1
      = 1 ∧
    (runStepsAux wTaskHigh6 [StepOutcome.exc "boom", StepOutcome.ok wRes] 3 1 2 9).2.2.1
      = 3 ∧
    ((runStepsAux wTaskHigh6 [StepOutcome.exc "boom", StepOutcome.ok wRes]
        3 1 2 9).1.steps[4]?).map TaskStep.status = some TaskStatus.pending ∧
    (runStepsAux wTaskMed6 [StepOutcome.exc "boom", StepOutcome.ok wRes] 3 1 2 9).2.1
      = 2 := by
  have hhigh := c5_priority_budget wTaskHigh6 (wStep "d") "boom" [StepOutcome.ok wRes]
    3 1 9 rfl rfl
    (by rw [show wTaskHigh6.steps.length = 6 from rfl]; norm_num) (by norm_num)
  have hmed := c5_priority_budget wTaskMed6 (wStep "d") "boom" [StepOutcome.ok wRes]
    3 1 9 rfl rfl
    (by rw [show wTaskMed6.steps.length = 6 from rfl]; norm_num) (by norm_num)
  obtain ⟨hrun, hpres⟩ := hhigh.1 rfl
  have hmrun := hmed.2 rfl
  refine ⟨?_, ?_, ?_, ?_⟩
  · rw [hrun]
  · rw [hrun]
  · rw [hpres 4 (by norm_num)]
    decide
  · rw [hmrun]
    decide

/-- Claim C6: calling execute_task on a task whose status is PROCESSING
returns the already_running response, not an exception, and returns the
manager unchanged: no field of any task changes, no timestamp changes, no
handle is registered, so no second execution is launched and step counters
cannot be double counted; since the state is returned unchanged, every
repeated call while the task remains PROCESSING behaves identically. -/
theorem c6_already_running (mgr : CloudTaskManager) (task_id : String)
    (now : ℕ) (task : TaskResponse)
    (hl : lookupTask mgr.tasks task_id = some task)
    (hs : task.status = TaskStatus.processing) :
    execute_task mgr task_id now = Except.ok (mgr, "already_running") := by
  unfold execute_task
  simp only [hl, hs, if_pos]

/-- Claim C6, witness: the concrete manager with a PROCESSING task gets
already_running and the identical manager back, twice over. -/
theorem c6_already_running_witness :
    execute_task wMgrProc "id0" 7 = Except.ok (wMgrProc, "already_running") ∧
    execute_task wMgrProc "id0" 8 = Except.ok (wMgrProc, "already_running") := by
  exact ⟨c6_already_running wMgrProc "id0" 7 wTask1p rfl rfl,
    c6_already_running wMgrProc "id0" 8 wTask1p rfl rfl⟩

/-- Claim C7: the task history is a bounded FIFO log whose default
capacity is 1000: a single append never grows a history already within
capacity beyond it, and appending capacity + 1 entries to an empty
history retains exactly the capacity most recently appended entries in
append order, the oldest entry having been evicted. -/
theorem c7_history_fifo :
    CloudTaskManager.init.max_history = 1000 ∧
    (∀ (mgr : CloudTaskManager) (task : TaskResponse),
      mgr.task_history.length ≤ mgr.max_history →
      (_add_to_history mgr task).task_history.length ≤ mgr.max_history) ∧
    (∀ (mgr : CloudTaskManager) (ts : List TaskResponse),
      mgr.task_history = [] →
      ts.length = mgr.max_history + 1 →
      (appendAllHistory mgr ts).task_history = (ts.map historyEntryOf).drop 1 ∧
      (appendAllHistory mgr ts).task_history.length = mgr.max_history) := by
  refine ⟨rfl, add_to_history_length_le, ?_⟩
  intro mgr ts h0 hlen
  have h := appendAllHistory_spec ts mgr [] (by simpa using h0)
  have h1 := h.1
  rw [List.nil_append] at h1
  constructor
  · rw [h1, List.length_map, hlen,
      show mgr.max_history + 1 - mgr.max_history = 1 from by omega]
  · rw [h1, List.length_drop, List.length_map, hlen]
    omega

/-- Claim C7, witness: a capacity-2 manager keeps, after three appends,
exactly the two most recent entries in order. -/
theorem c7_history_fifo_witness :
    (appendAllHistory wHistMgr [wTaskA, wTaskB, wTaskC]).task_history
      = [historyEntryOf wTaskB, historyEntryOf wTaskC] ∧
    (appendAllHistory wHistMgr [wTaskA, wTaskB, wTaskC]).task_history.length = 2 := by
  obtain ⟨h1, h2⟩ := c7_history_fifo.2.2 wHistMgr [wTaskA, wTaskB, wTaskC] rfl rfl
  constructor
  · rw [h1]
    rfl
  · rw [h2]
    rfl

/-- Claim C8: on every exit path of the step-execution routine the task id
is removed from the in-flight registry, and when an unexpected error
escapes the per-step handling the stored task is forced to FAILED with
the error message recorded. -/
theorem c8_cleanup (mgr : CloudTaskManager) (task_id : String)
    (outcomes : List StepOutcome) (crash : Option String) (start_time : ℕ) :
    task_id ∉ (_execute_task_steps mgr task_id outcomes crash start_time).active_tasks ∧
    (∀ (task : TaskResponse) (msg : String),
      lookupTask mgr.tasks task_id = some task → crash = some msg →
      (lookupTask (_execute_task_steps mgr task_id outcomes crash start_time).tasks
          task_id).map TaskResponse.status = some TaskStatus.failed ∧
      (lookupTask (_execute_task_steps mgr task_id outcomes crash start_time).tasks
          task_id).map TaskResponse.error_message = some (some msg)) := by
  refine ⟨execute_steps_not_active mgr task_id outcomes crash start_time, ?_⟩
  intro task msg hl hcrash
  subst hcrash
  rw [execute_steps_crash mgr task_id outcomes msg start_time task hl]
  exact ⟨rfl, rfl⟩

/-- Claim C8, witness: a concrete crash run removes the handle and records
the failure on the task. -/
theorem c8_cleanup_witness :
    "id0" ∉ (_execute_task_steps wMgrProc "id0" [] (some "boom") 0).active_tasks ∧
    (lookupTask (_execute_task_steps wMgrProc "id0" [] (some "boom") 0).tasks
        "id0").map TaskResponse.status = some TaskStatus.failed ∧
    (lookupTask (_execute_task_steps wMgrProc "id0" [] (some "boom") 0).tasks
        "id0").map TaskResponse.error_message = some (some "boom") := by
  obtain ⟨hact, hcr⟩ := c8_cleanup wMgrProc "id0" [] (some "boom") 0
  obtain ⟨h1, h2⟩ := hcr wTask1p "boom" rfl rfl
  exact ⟨hact, h1, h2⟩

/-- Claim C9: executing a task whose step list is empty terminates the
routine with status COMPLETED, success_rate 1, pending_steps 0,
completed_at set and progress still 0 (the loop body never runs, so
progress is never recomputed); the COMPLETED branch is taken because
failed_steps = 0, so the division computing a partial success rate is
never evaluated. -/
theorem c9_empty_steps (mgr : CloudTaskManager) (task_id : String)
    (outcomes : List StepOutcome) (start_time : ℕ) (task : TaskResponse)
    (hl : lookupTask mgr.tasks task_id = some task)
    (hsteps : task.steps = [])
    (hfresh : freshTask task) :
    ∃ t', lookupTask
        (_execute_task_steps mgr task_id outcomes none start_time).tasks task_id
        = some t' ∧
      t'.status = TaskStatus.completed ∧
      t'.success_rate = 1 ∧
      t'.pending_steps = 0 ∧
      t'.completed_at.isSome = true ∧
      t'.progress = 0 := by
  obtain ⟨hc0, hf0, hp0, ht0, hpend0⟩ := hfresh
  refine ⟨_, execute_steps_normal mgr task_id outcomes start_time task hl,
    ?_, ?_, ?_, ?_, ?_⟩
  all_goals
    rw [runStepsAux_nil_steps outcomes task 0 0 0 (start_time + 1) hsteps]
  · exact ((finalizeTask_status task 0 0 start_time (start_time + 1)).1 rfl).1
  · exact ((finalizeTask_status task 0 0 start_time (start_time + 1)).1 rfl).2
  · rw [(finalizeTask_fields task 0 0 start_time (start_time + 1)).2.2.2.2.2.1,
      hsteps]
    rfl
  · rw [(finalizeTask_fields task 0 0 start_time (start_time + 1)).2.2.2.2.2.2.1]
    rfl
  · rw [(finalizeTask_fields task 0 0 start_time (start_time + 1)).2.2.1, hp0]

/-- Claim C9, witness: the concrete empty-step task run ends COMPLETED
with success_rate 1, pending_steps 0, completed_at set and progress 0. -/
theorem c9_empty_steps_witness :
    ((lookupTask (_execute_task_steps wMgr0 "id9" [] none 0).tasks
        "id9").getD wTask0).status = TaskStatus.completed ∧
    ((lookupTask (_execute_task_steps wMgr0 "id9" [] none 0).tasks
        "id9").getD wTask0).success_rate = 1 ∧
    ((lookupTask (_execute_task_steps wMgr0 "id9" [] none 0).tasks
        "id9").getD wTask0).pending_steps = 0 ∧
    ((lookupTask (_execute_task_steps wMgr0 "id9" [] none 0).tasks
        "id9").getD wTask0).progress = 0 := by
  obtain ⟨t', hl, h1, h2, h3, h4, h5⟩ :=
    c9_empty_steps wMgr0 "id9" [] 0 wTask0 rfl rfl ⟨rfl, rfl, rfl, rfl, rfl⟩
  have hgd : (lookupTask (_execute_task_steps wMgr0 "id9" [] none 0).tasks
      "id9").getD wTask0 = t' := by
    rw [hl]
    rfl
  rw [hgd]
  exact ⟨h1, h2, h3, h5⟩

/-- Claim C10: _execute_step is total: for every handler outcome,
including a thrown handler exception, it returns the result record (so
the success, execution_time and timestamp keys are always present by
type), the reported duration is non-negative whenever the clock is
monotone, a normal handler result yields success = true with the result
stored, and a handler exception is caught and converted into
success = false with the error message recorded, so the per-step
exception branch of the caller is never triggered by a handler error. -/
theorem c10_execute_step_total (handlerOutcome : Except String String)
    (start_time end_time : ℕ) (hmono : start_time ≤ end_time) :
    0 ≤ (_execute_step handlerOutcome start_time end_time).execution_time ∧
    (_execute_step handlerOutcome start_time end_time).timestamp = end_time ∧
    (∀ r, handlerOutcome = Except.ok r →
      (_execute_step handlerOutcome start_time end_time).success = true ∧
      (_execute_step handlerOutcome start_time end_time).result = some r) ∧
    (∀ e, handlerOutcome = Except.error e →
      (_execute_step handlerOutcome start_time end_time).success = false ∧
      (_execute_step handlerOutcome start_time end_time).error = some e) := by
  have hnn : (0 : ℚ) ≤ (end_time : ℚ) - (start_time : ℚ) := by
    rw [sub_nonneg]
    exact_mod_cast hmono
  cases handlerOutcome with
  | ok r =>
    refine ⟨hnn, rfl, ?_, ?_⟩
    · intro r' hr
      cases hr
      exact ⟨rfl, rfl⟩
    · intro e he
      cases he
  | error e =>
    refine ⟨hnn, rfl, ?_, ?_⟩
    · intro r' hr
      cases hr
    · intro e' he
      cases he
      exact ⟨rfl, rfl⟩

/-- Claim C10, witness: a concrete thrown handler exception is converted
into a failed result record with a non-negative duration. -/
theorem c10_execute_step_total_witness :
    0 ≤ (_execute_step (Except.error "handler blew up") 3 5).execution_time ∧
    (_execute_step (Except.error "handler blew up") 3 5).timestamp = 5 ∧
    (_execute_step (Except.error "handler blew up") 3 5).success = false ∧
    (_execute_step (Except.error "handler blew up") 3 5).error
      = some "handler blew up" := by
  obtain ⟨h1, h2, h3, h4⟩ :=
    c10_execute_step_total (Except.error "handler blew up") 3 5 (by norm_num)
  obtain ⟨h5, h6⟩ := h4 "handler blew up" rfl
  exact ⟨h1, h2, h5, h6⟩

end ScreenSage
